import Mathlib

/-!
Shallow embedding of the teloxide webhook example (src/src/main.rs): a bot
process that parses PORT/HOST from the environment, registers a webhook URL
with the platform via webhooks.axum_to_router, spawns an axum HTTP server
task guarded by a stop token, and runs teloxide.repl_with_listener as the
update dispatch loop.  Components implemented inside the teloxide/axum
libraries (stop token, update channel, dispatch loop, update codec, webhook
POST handler) are modelled from the spec, as marked on each definition.
-/

namespace TeloxideWebhook

/-- An inbound platform update: a unique update identifier and the source
chat identifier (spec section 3, Data Model). -/
structure Update where
  id : Nat
  chatId : Nat
  deriving DecidableEq, Repr

/-- Handler failure value (spec section 4.4: handle returns Result). -/
structure HandlerError where
  msg : String
  deriving DecidableEq, Repr

/-- Modelled from the spec: the StopToken half of the single-fire broadcast
StopToken/StopSignal pair (spec section 3), implemented inside teloxide's
update_listeners, not in src/.  A single atomic fired flag. -/
structure StopToken where
  fired : Bool
  deriving DecidableEq, Repr

/-- Firing the stop token sets the fired flag (spec section 3). -/
def StopToken.stop (_t : StopToken) : StopToken := ⟨true⟩

/-- Modelled from the spec: the internal single-producer single-consumer
update channel (spec sections 3 and 4.2), implemented inside teloxide, not
in src/.  A FIFO queue of updates plus a closed flag. -/
structure Channel where
  queue : List Update
  closed : Bool
  deriving DecidableEq, Repr

/-- Enqueue into the channel; rejected (second component false) when the
channel is already closed (spec section 4.2). -/
def Channel.enqueue (c : Channel) (u : Update) : Channel × Bool :=
  if c.closed then (c, false) else (⟨c.queue ++ [u], c.closed⟩, true)

/-- The webhook listener state visible to shutdown coordination: the update
channel plus the shared stop token (spec sections 3 and 4.2). -/
structure ListenerState where
  channel : Channel
  token : StopToken
  deriving DecidableEq, Repr

/-- Modelled from the spec: invoking the listener stop token closes the
internal channel and marks the stopped signal (spec section 4.2,
stop_token contract), implemented inside teloxide, not in src/. -/
def fireStop (l : ListenerState) : ListenerState :=
  ⟨⟨l.channel.queue, true⟩, l.token.stop⟩

/-- Firing the listener stop n times in sequence. -/
def fireStopN : Nat → ListenerState → ListenerState
  | 0, l => l
  | n + 1, l => fireStopN n (fireStop l)

/-! ## Dispatch loop (teloxide repl_with_listener internals) -/

/-- One observable event of a Dispatch Loop run: a handler invocation for an
update (recording whether the handler succeeded) or the loop stopping. -/
inductive DispatchEvent where
  | handled (u : Update) (ok : Bool)
  | stopped
  deriving DecidableEq, Repr

/-- Modelled from the spec: the Dispatch Loop (spec section 4.4), implemented
inside teloxide's repl_with_listener, not in src/.  It invokes the handler
once per queued update in FIFO order; handler errors are caught and logged,
never terminating the loop; the loop stops when the closed channel is
drained. -/
def dispatchLoop (h : Update → Except HandlerError Unit) :
    List Update → List DispatchEvent
  | [] => [.stopped]
  | u :: rest => .handled u (h u).toBool :: dispatchLoop h rest

/-- A terminating run of the Dispatch Loop over a channel: defined exactly
when the channel is closed (spec section 4.4, Running to Stopped on channel
close); on an open channel the loop is still suspended waiting. -/
def drainDispatch (h : Update → Except HandlerError Unit) (c : Channel) :
    Option (List DispatchEvent) :=
  if c.closed then some (dispatchLoop h c.queue) else none

/-- Updates delivered to the handler during a run, in order. -/
def deliveredOf : List DispatchEvent → List Update
  | [] => []
  | .handled u _ :: rest => u :: deliveredOf rest
  | .stopped :: rest => deliveredOf rest

/-- Number of stop events in a run. -/
def stoppedCount : List DispatchEvent → Nat
  | [] => 0
  | .handled _ _ :: rest => stoppedCount rest
  | .stopped :: rest => stoppedCount rest + 1

/-! ## Update codec and HTTP routing -/

/-- An inbound webhook request body, classified by the platform update
schema (spec section 4.1). -/
inductive Payload where
  | wellFormed (u : Update)
  | malformed
  | unsupported
  deriving DecidableEq, Repr

/-- Decode failure taxonomy (spec section 4.1). -/
inductive DecodeError where
  | Malformed
  | UnsupportedVariant
  deriving DecidableEq, Repr

/-- Modelled from the spec: the Update Codec, decode(raw) to Result of
Update or DecodeError (spec section 4.1), implemented inside teloxide's
webhook machinery, not in src/.  A total function: it never panics or
blocks. -/
def decode : Payload → Except DecodeError Update
  | .wellFormed u => .ok u
  | .malformed => .error .Malformed
  | .unsupported => .error .UnsupportedVariant

/-- An HTTP response: status code and body. -/
structure HttpResponse where
  status : Nat
  body : String
  deriving DecidableEq, Repr

/-- axum renders a handler returning a static string as status 200 with the
string as the body. -/
def strResponse (s : String) : HttpResponse := ⟨200, s⟩

/-- The health handler from src/src/main.rs lines 56-58: returns the static
body OK, rendered by axum as a 200 response. -/
def health_handler : HttpResponse := strResponse "OK"

/-- Modelled from the spec: the webhook POST handler installed by
webhooks.axum_to_router (spec sections 4.2 and 6), not in src/.  Decode the
payload; on success enqueue and answer 200 (503 if the channel is already
closed); on decode failure answer a client-error status, enqueue nothing. -/
def handleWebhookPost (c : Channel) (p : Payload) : Channel × HttpResponse :=
  match decode p with
  | .ok u =>
    let (c2, accepted) := c.enqueue u
    if accepted then (c2, ⟨200, ""⟩) else (c2, ⟨503, ""⟩)
  | .error _ => (c, ⟨400, ""⟩)

/-- HTTP method of an inbound request. -/
inductive Method where
  | get
  | post
  deriving DecidableEq, Repr

/-- An inbound HTTP request: method, path and (for POST) the body. -/
structure Request where
  method : Method
  path : String
  body : Payload
  deriving DecidableEq, Repr

/-- The router from src/src/main.rs line 29: the webhook router returned by
axum_to_router, extended with the route GET /health mapped to
health_handler.  Any other route is a 404. -/
def app (l : ListenerState) (r : Request) : ListenerState × HttpResponse :=
  match r.method, r.path with
  | .get, "/health" => (l, health_handler)
  | .post, "/webhook" =>
    let (c2, resp) := handleWebhookPost l.channel r.body
    (⟨c2, l.token⟩, resp)
  | _, _ => (l, ⟨404, ""⟩)

/-! ## The spawned server task (src/src/main.rs lines 33-43) -/

/-- Rust Result.inspect_err specialised to the closure used in main: on an
error, fire the stop token; the result value is passed through unchanged. -/
def inspectErrStop (t : StopToken) (r : Except String Unit) :
    StopToken × Except String Unit :=
  match r with
  | .error e => (t.stop, .error e)
  | .ok a => (t, .ok a)

/-- The spawned server task of src/src/main.rs lines 33-43: bind the TCP
listener, then serve; each step runs through inspect_err (firing the stop
token on failure) before expect propagates the error as a panic.  The
inputs are the outcomes of the bind and serve calls; the output is the stop
token state paired with the propagated error, if any. -/
def serverTask (t : StopToken) (bindRes serveRes : Except String Unit) :
    StopToken × Except String Unit :=
  let (t1, b) := inspectErrStop t bindRes
  match b with
  | .error e => (t1, .error e)
  | .ok _ =>
    let (t2, s) := inspectErrStop t1 serveRes
    (t2, s)

/-! ## Startup configuration (src/src/main.rs lines 12-21) -/

/-- Value of Rust str.parse for u16: an optional leading plus sign followed
by at least one decimal digit, with the value below 2^16; anything else is
a parse error. -/
def parseU16 (s : String) : Option Nat :=
  let cs := s.data
  let ds := if cs.head? = some '+' then cs.tail else cs
  if ds.isEmpty then none
  else if ds.all Char.isDigit then
    let n := ds.foldl (fun acc c => acc * 10 + (c.toNat - 48)) 0
    if n < 65536 then some n else none
  else none

/-- The network configuration computed at startup: the listen address
octets, the listen port, and the webhook URL string. -/
structure NetConfig where
  addrOctets : Nat × Nat × Nat × Nat
  port : Nat
  url : String
  deriving DecidableEq, Repr

/-- src/src/main.rs lines 12-21: the port comes from the PORT environment
variable (default "8080") parsed as u16, panicking on a parse failure; the
address is ([0,0,0,0], port); the host comes from the HOST environment
variable, panicking when unset; the webhook URL is
the string https://{host}/webhook.  none means the startup panicked. -/
def startupConfig (portVar hostVar : Option String) : Option NetConfig :=
  match parseU16 (portVar.getD "8080") with
  | none => none
  | some p =>
    match hostVar with
    | none => none
    | some host => some ⟨(0, 0, 0, 0), p, "https://" ++ host ++ "/webhook"⟩

/-! ## Whole-process run model (src/src/main.rs main) -/

/-- Observable milestones of a process run, in trace order. -/
inductive Ev where
  | botFromEnv
  | configRead
  | registerWebhook
  | listenerConstructed
  | bindAttempt
  | serveStart
  | fireStopEv
  | dispatchStopped
  deriving DecidableEq, Repr

/-- External world of one process run: environment variables and the
outcomes of the fallible external calls. -/
structure World where
  tokenOk : Bool
  portVar : Option String
  hostVar : Option String
  regOk : Bool
  bindOk : Bool
  serveOk : Bool
  externalStop : Bool
  deriving DecidableEq, Repr

/-- Outcome of a process run: the event trace, the process exit code (none
when the process is still running), and whether the stop token ended up
fired. -/
structure RunOutcome where
  trace : List Ev
  exitCode : Option Nat
  stopFired : Bool
  deriving DecidableEq, Repr

/-- Whether the run's environment passes the fail-fast startup checks. -/
def World.configOk (w : World) : Bool :=
  w.tokenOk && (startupConfig w.portVar w.hostVar).isSome

/-- The whole process, src/src/main.rs main, under Rust and tokio semantics:
a panic on the main task (Bot::from_env, the PORT parse, the HOST read, or
the axum_to_router expect) aborts the process with exit code 101; a panic
inside the spawned server task (bind or serve failure) kills only that
task, but the stop token fired by inspect_err first closes the listener,
so repl_with_listener drains and returns and main exits with code 0; a
graceful external stop likewise ends with exit code 0; otherwise the
process keeps running. -/
def runMain (w : World) : RunOutcome :=
  if ¬ w.tokenOk then ⟨[.botFromEnv], some 101, false⟩
  else
    match startupConfig w.portVar w.hostVar with
    | none => ⟨[.botFromEnv, .configRead], some 101, false⟩
    | some _cfg =>
      if ¬ w.regOk then
        ⟨[.botFromEnv, .configRead, .registerWebhook], some 101, false⟩
      else
        let pre : List Ev :=
          [.botFromEnv, .configRead, .registerWebhook, .listenerConstructed]
        if ¬ w.bindOk then
          ⟨pre ++ [.bindAttempt, .fireStopEv, .dispatchStopped], some 0, true⟩
        else if ¬ w.serveOk then
          ⟨pre ++ [.bindAttempt, .serveStart, .fireStopEv, .dispatchStopped],
            some 0, true⟩
        else if w.externalStop then
          ⟨pre ++ [.bindAttempt, .serveStart, .fireStopEv, .dispatchStopped],
            some 0, true⟩
        else ⟨pre ++ [.bindAttempt, .serveStart], none, false⟩

/-- A run in which the listen address is already occupied: well-formed
environment, registration succeeds, the bind fails. -/
def bindFailWorld : World :=
  ⟨true, some "8080", some "example.com", true, false, true, false⟩

/-! ## Helper lemmas -/

/-- Every Dispatch Loop run delivers exactly the queued updates, in order. -/
theorem deliveredOf_dispatchLoop (h : Update → Except HandlerError Unit) :
    ∀ us : List Update, deliveredOf (dispatchLoop h us) = us := by
  intro us
  induction us with
  | nil => rfl
  | cons u rest ih => simp [dispatchLoop, deliveredOf, ih]

/-- Every Dispatch Loop run stops exactly once. -/
theorem stoppedCount_dispatchLoop (h : Update → Except HandlerError Unit) :
    ∀ us : List Update, stoppedCount (dispatchLoop h us) = 1 := by
  intro us
  induction us with
  | nil => rfl
  | cons u rest ih => simp [dispatchLoop, stoppedCount, ih]

/-- Firing the listener stop twice equals firing it once. -/
theorem fireStop_fireStop (l : ListenerState) :
    fireStop (fireStop l) = fireStop l := rfl

/-- Firing the listener stop n times, n at least 1, equals firing it once. -/
theorem fireStopN_eq_fireStop (n : Nat) (l : ListenerState) (hn : 1 ≤ n) :
    fireStopN n l = fireStop l := by
  induction n generalizing l with
  | zero => omega
  | succ m ih =>
    cases Nat.eq_zero_or_pos m with
    | inl h0 => subst h0; rfl
    | inr hpos =>
      have : fireStopN (m + 1) l = fireStopN m (fireStop l) := rfl
      rw [this, ih (fireStop l) hpos, fireStop_fireStop]

/-- Every update in the queue gets a handler invocation event recording its
handler result. -/
theorem handled_mem_dispatchLoop (h : Update → Except HandlerError Unit) :
    ∀ us : List Update, ∀ u ∈ us,
      DispatchEvent.handled u (h u).toBool ∈ dispatchLoop h us := by
  intro us
  induction us with
  | nil => intro u hu; cases hu
  | cons v rest ih =>
    intro u hu
    cases List.mem_cons.mp hu with
    | inl heq => subst heq; exact List.mem_cons_self _ _
    | inr htl => exact List.mem_cons_of_mem _ (ih u htl)

/-! ## Claim theorems -/

/-- Claim C1: if binding the TCP listener or serving the HTTP server fails,
the server task fires the stop token before propagating the error, so for
every failing run of the server task the stop token is in the fired state
when the error propagates. -/
theorem serverTask_fires_stop_before_error (t : StopToken)
    (bindRes serveRes : Except String Unit) (e : String)
    (h : (serverTask t bindRes serveRes).2 = Except.error e) :
    (serverTask t bindRes serveRes).1.fired = true := by
  cases bindRes with
  | error eb => rfl
  | ok a =>
    cases serveRes with
    | error es => rfl
    | ok b => simp [serverTask, inspectErrStop] at h

/-- Claim C1 witness: with an unfired token and a failing bind, the task
propagates the bind error and the token is fired. -/
theorem serverTask_fires_stop_witness :
    (serverTask ⟨false⟩ (Except.error "addr in use") (Except.ok ())).2 =
      Except.error "addr in use" ∧
    (serverTask ⟨false⟩ (Except.error "addr in use") (Except.ok ())).1.fired =
      true :=
  ⟨rfl, serverTask_fires_stop_before_error ⟨false⟩ _ _ "addr in use" rfl⟩

/-- Claim C3: firing the stop token is idempotent: for every n at least 1,
firing it n times leaves the listener in the same state as firing it once,
the resulting Dispatch Loop run is identical, and that run stops exactly
once. -/
theorem stop_token_idempotent (n : Nat) (l : ListenerState)
    (h : Update → Except HandlerError Unit) (hn : 1 ≤ n) :
    fireStopN n l = fireStop l ∧
    drainDispatch h (fireStopN n l).channel =
      drainDispatch h (fireStop l).channel ∧
    ∃ evs, drainDispatch h (fireStopN n l).channel = some evs ∧
      stoppedCount evs = 1 := by
  have he := fireStopN_eq_fireStop n l hn
  refine ⟨he, by rw [he], ?_⟩
  rw [he]
  exact ⟨dispatchLoop h l.channel.queue, rfl, stoppedCount_dispatchLoop h _⟩

/-- Claim C3 witness: firing three times on a fresh listener equals firing
once, with an identical run that stops exactly once. -/
theorem stop_token_idempotent_witness :
    fireStopN 3 ⟨⟨[], false⟩, ⟨false⟩⟩ = fireStop ⟨⟨[], false⟩, ⟨false⟩⟩ ∧
    drainDispatch (fun _ => Except.ok ())
        (fireStopN 3 ⟨⟨[], false⟩, ⟨false⟩⟩).channel =
      drainDispatch (fun _ => Except.ok ())
        (fireStop ⟨⟨[], false⟩, ⟨false⟩⟩).channel ∧
    ∃ evs, drainDispatch (fun _ => Except.ok ())
        (fireStopN 3 ⟨⟨[], false⟩, ⟨false⟩⟩).channel = some evs ∧
      stoppedCount evs = 1 :=
  stop_token_idempotent 3 ⟨⟨[], false⟩, ⟨false⟩⟩ (fun _ => Except.ok ())
    (by decide)

/-- Claim C4: every GET request to /health served while the HTTP server is
alive gets a 200 response with body OK, leaving the listener state (channel
and stop token, hence the Dispatch Loop) untouched, whatever that state
is. -/
theorem health_always_ok (l : ListenerState) (p : Payload) :
    app l ⟨Method.get, "/health", p⟩ = (l, ⟨200, "OK"⟩) := rfl

/-- Claim C5: handler errors never terminate the Dispatch Loop: if the
handler fails on some update in the queue, that failure is recorded as a
caught event, every update in the queue is still delivered in order, and
the loop stops exactly once, at the end. -/
theorem handler_error_does_not_kill_loop
    (h : Update → Except HandlerError Unit) (us : List Update) (u : Update)
    (hu : u ∈ us) (hbad : (h u).toBool = false) :
    DispatchEvent.handled u false ∈ dispatchLoop h us ∧
    deliveredOf (dispatchLoop h us) = us ∧
    stoppedCount (dispatchLoop h us) = 1 :=
  ⟨hbad ▸ handled_mem_dispatchLoop h us u hu,
    deliveredOf_dispatchLoop h us, stoppedCount_dispatchLoop h us⟩

/-- A handler that fails exactly on the update with identifier 2. -/
def failOnSecond : Update → Except HandlerError Unit :=
  fun u => if u.id = 2 then Except.error ⟨"handler failed"⟩ else Except.ok ()

/-- Claim C5 witness: in the sequence [u1, u2, u3] with the handler failing
on u2, the failure is recorded, all three updates are delivered in order,
and the loop stops once. -/
theorem handler_error_does_not_kill_loop_witness :
    (⟨2, 7⟩ : Update) ∈ [(⟨1, 7⟩ : Update), ⟨2, 7⟩, ⟨3, 7⟩] ∧
    (failOnSecond ⟨2, 7⟩).toBool = false ∧
    (DispatchEvent.handled ⟨2, 7⟩ false ∈
        dispatchLoop failOnSecond [⟨1, 7⟩, ⟨2, 7⟩, ⟨3, 7⟩] ∧
      deliveredOf (dispatchLoop failOnSecond [⟨1, 7⟩, ⟨2, 7⟩, ⟨3, 7⟩]) =
        [⟨1, 7⟩, ⟨2, 7⟩, ⟨3, 7⟩] ∧
      stoppedCount (dispatchLoop failOnSecond [⟨1, 7⟩, ⟨2, 7⟩, ⟨3, 7⟩]) = 1) :=
  ⟨by decide, by decide,
    handler_error_does_not_kill_loop failOnSecond _ ⟨2, 7⟩ (by decide)
      (by decide)⟩

/-- Claim C6: the Dispatch Loop delivers every enqueued sequence of updates
to the handler in exactly the enqueued order, with no reordering and no
deduplication, for every handler. -/
theorem fifo_delivery (h : Update → Except HandlerError Unit)
    (us : List Update) : deliveredOf (dispatchLoop h us) = us :=
  deliveredOf_dispatchLoop h us

/-- Claim C7: no update loss on graceful shutdown: enqueueing one valid
update into a fresh listener and then firing the stop token yields a
terminating Dispatch Loop run that delivers exactly that update once and
then stops. -/
theorem no_update_loss_on_graceful_shutdown
    (h : Update → Except HandlerError Unit) (u : Update) :
    ∃ evs, drainDispatch h
        (fireStop ⟨(Channel.enqueue ⟨[], false⟩ u).1, ⟨false⟩⟩).channel =
        some evs ∧
      deliveredOf evs = [u] ∧
      evs.getLast? = some DispatchEvent.stopped ∧
      stoppedCount evs = 1 :=
  ⟨[.handled u (h u).toBool, .stopped], rfl, rfl, rfl, rfl⟩

/-- Claim C8: for every malformed inbound payload, decode (a total
function, hence never panicking or blocking) returns a DecodeError, and the
webhook handler responds with a client-error status and leaves the channel
untouched. -/
theorem malformed_rejected (c : Channel) (p : Payload)
    (hm : ∀ u, p ≠ Payload.wellFormed u) :
    ∃ e, decode p = Except.error e ∧
      (handleWebhookPost c p).1 = c ∧
      400 ≤ (handleWebhookPost c p).2.status ∧
      (handleWebhookPost c p).2.status < 500 := by
  cases p with
  | wellFormed u => exact absurd rfl (hm u)
  | malformed =>
    exact ⟨.Malformed, rfl, rfl, Nat.le_refl 400,
      (by decide : (400 : Nat) < 500)⟩
  | unsupported =>
    exact ⟨.UnsupportedVariant, rfl, rfl, Nat.le_refl 400,
      (by decide : (400 : Nat) < 500)⟩

/-- Claim C8 witness: a malformed payload against an open empty channel is
decoded to an error and rejected with a client-error status, enqueueing
nothing. -/
theorem malformed_rejected_witness :
    ∃ e, decode Payload.malformed = Except.error e ∧
      (handleWebhookPost ⟨[], false⟩ Payload.malformed).1 = ⟨[], false⟩ ∧
      400 ≤ (handleWebhookPost ⟨[], false⟩ Payload.malformed).2.status ∧
      (handleWebhookPost ⟨[], false⟩ Payload.malformed).2.status < 500 :=
  malformed_rejected ⟨[], false⟩ Payload.malformed
    (fun _ h => Payload.noConfusion h)

/-- The startup computation returns none exactly on the fail-fast panics:
an unparsable PORT value or an unset HOST variable. -/
theorem startupConfig_eq_none (pv hv : Option String)
    (h : parseU16 (pv.getD "8080") = none ∨ hv = none) :
    startupConfig pv hv = none := by
  unfold startupConfig
  cases h with
  | inl hp => rw [hp]
  | inr hh =>
    subst hh
    cases hq : parseU16 (pv.getD "8080") with
    | none => rfl
    | some p => rfl

/-- Claim C9: in every successful startup the listen address octets are
0.0.0.0, the port is the parsed PORT variable (8080 when PORT is unset),
and the registered webhook URL is exactly https://{HOST}/webhook, with the
scheme and path fixed. -/
theorem startup_config_shape (pv hv : Option String) (cfg : NetConfig)
    (h : startupConfig pv hv = some cfg) :
    cfg.addrOctets = (0, 0, 0, 0) ∧
    (∃ p, parseU16 (pv.getD "8080") = some p ∧ cfg.port = p) ∧
    (pv = none → cfg.port = 8080) ∧
    ∃ host, hv = some host ∧ cfg.url = "https://" ++ host ++ "/webhook" := by
  cases hp : parseU16 (pv.getD "8080") with
  | none =>
    rw [startupConfig_eq_none pv hv (Or.inl hp)] at h
    cases h
  | some p =>
    cases hv with
    | none =>
      rw [startupConfig_eq_none pv none (Or.inr rfl)] at h
      cases h
    | some host =>
      have hs : startupConfig pv (some host) =
          some ⟨(0, 0, 0, 0), p, "https://" ++ host ++ "/webhook"⟩ := by
        unfold startupConfig
        rw [hp]
      rw [hs] at h
      have hcfg := Option.some.inj h
      subst hcfg
      refine ⟨rfl, ⟨p, rfl, rfl⟩, ?_, host, rfl, rfl⟩
      intro hpv
      subst hpv
      have h8080 : parseU16 ((none : Option String).getD "8080") =
          some 8080 := by decide
      exact (Option.some.inj (h8080.symm.trans hp)).symm

/-- Claim C9 witness: with PORT unset and HOST example.com the startup
succeeds with address 0.0.0.0, port 8080 and webhook URL
https://example.com/webhook. -/
theorem startup_config_shape_witness :
    startupConfig none (some "example.com") =
      some ⟨(0, 0, 0, 0), 8080, "https://example.com/webhook"⟩ ∧
    ((⟨(0, 0, 0, 0), 8080, "https://example.com/webhook"⟩ :
        NetConfig).addrOctets = (0, 0, 0, 0) ∧
      (∃ p, parseU16 ((none : Option String).getD "8080") = some p ∧
        (⟨(0, 0, 0, 0), 8080, "https://example.com/webhook"⟩ :
          NetConfig).port = p) ∧
      ((none : Option String) = none →
        (⟨(0, 0, 0, 0), 8080, "https://example.com/webhook"⟩ :
          NetConfig).port = 8080) ∧
      ∃ host, (some "example.com" : Option String) = some host ∧
        (⟨(0, 0, 0, 0), 8080, "https://example.com/webhook"⟩ :
          NetConfig).url = "https://" ++ host ++ "/webhook") :=
  ⟨rfl, startup_config_shape none (some "example.com")
    ⟨(0, 0, 0, 0), 8080, "https://example.com/webhook"⟩ rfl⟩

/-- Claim C10: configuration is validated fail-fast: if HOST is unset or
PORT does not parse as a 16-bit unsigned integer, the process panics (exit
code 101, non-zero) before registering with the platform, constructing the
webhook listener, or attempting any bind. -/
theorem fail_fast_on_bad_config (w : World)
    (hbad : parseU16 (w.portVar.getD "8080") = none ∨ w.hostVar = none) :
    (runMain w).exitCode = some 101 ∧
    Ev.registerWebhook ∉ (runMain w).trace ∧
    Ev.listenerConstructed ∉ (runMain w).trace ∧
    Ev.bindAttempt ∉ (runMain w).trace := by
  have hnone := startupConfig_eq_none w.portVar w.hostVar hbad
  by_cases ht : w.tokenOk
  · simp [runMain, ht, hnone]
  · simp [runMain, ht]

/-- A run whose PORT variable does not parse as an integer. -/
def badPortWorld : World :=
  ⟨true, some "not-a-number", some "example.com", true, true, true, false⟩

/-- Claim C10 witness: with PORT set to a non-numeric string the process
panics with exit code 101 and no registration, listener construction or
bind is attempted. -/
theorem fail_fast_on_bad_config_witness :
    (parseU16 (badPortWorld.portVar.getD "8080") = none ∨
      badPortWorld.hostVar = none) ∧
    ((runMain badPortWorld).exitCode = some 101 ∧
      Ev.registerWebhook ∉ (runMain badPortWorld).trace ∧
      Ev.listenerConstructed ∉ (runMain badPortWorld).trace ∧
      Ev.bindAttempt ∉ (runMain badPortWorld).trace) :=
  ⟨Or.inl (by decide), fail_fast_on_bad_config badPortWorld
    (Or.inl (by decide))⟩

/-- Claim C2 counterexample: in a run where the listen address is already
occupied (bind fails) with an otherwise well-formed environment, the
process exits with code 0, not non-zero, and the platform registration was
attempted (it precedes the bind attempt in the trace), contradicting both
the non-zero exit code and the exits-before-registration parts of the
claim. -/
theorem bind_failure_exits_zero_after_registration :
    (runMain bindFailWorld).exitCode = some 0 ∧
    (runMain bindFailWorld).stopFired = true ∧
    Ev.registerWebhook ∈ (runMain bindFailWorld).trace ∧
    (runMain bindFailWorld).trace.indexOf Ev.registerWebhook <
      (runMain bindFailWorld).trace.indexOf Ev.bindAttempt := by
  decide

/-- Claim C2, amended: the process exits non-zero (panic, code 101) on
registration failure; on bind failure or an unrecoverable server error it
fires the stop token and terminates gracefully with exit code 0; graceful
shutdown also exits 0; and whenever a bind is attempted the platform
registration has already happened earlier in the run. -/
theorem exit_code_behaviour (w : World) (hcfg : w.configOk = true) :
    (w.regOk = false → (runMain w).exitCode = some 101) ∧
    (w.regOk = true → w.bindOk = false →
      (runMain w).exitCode = some 0 ∧ (runMain w).stopFired = true) ∧
    (w.regOk = true → w.bindOk = true → w.serveOk = false →
      (runMain w).exitCode = some 0 ∧ (runMain w).stopFired = true) ∧
    (w.regOk = true → w.bindOk = true → w.serveOk = true →
      w.externalStop = true → (runMain w).exitCode = some 0) ∧
    (Ev.bindAttempt ∈ (runMain w).trace →
      (runMain w).trace.indexOf Ev.registerWebhook <
        (runMain w).trace.indexOf Ev.bindAttempt) := by
  obtain ⟨tok, pv, hv, reg, bind, serve, ext⟩ := w
  unfold World.configOk at hcfg
  rw [Bool.and_eq_true] at hcfg
  obtain ⟨ht, hs⟩ := hcfg
  simp only at ht hs
  subst ht
  obtain ⟨cfg, hc⟩ := Option.isSome_iff_exists.mp hs
  cases reg <;> cases bind <;> cases serve <;> cases ext <;>
    simp [runMain, hc]

/-- Claim C2 witness (amended claim): the occupied-address run satisfies
the amended exit-code behaviour. -/
theorem exit_code_behaviour_witness :
    bindFailWorld.configOk = true ∧
    ((bindFailWorld.regOk = false →
        (runMain bindFailWorld).exitCode = some 101) ∧
      (bindFailWorld.regOk = true → bindFailWorld.bindOk = false →
        (runMain bindFailWorld).exitCode = some 0 ∧
          (runMain bindFailWorld).stopFired = true) ∧
      (bindFailWorld.regOk = true → bindFailWorld.bindOk = true →
        bindFailWorld.serveOk = false →
        (runMain bindFailWorld).exitCode = some 0 ∧
          (runMain bindFailWorld).stopFired = true) ∧
      (bindFailWorld.regOk = true → bindFailWorld.bindOk = true →
        bindFailWorld.serveOk = true → bindFailWorld.externalStop = true →
        (runMain bindFailWorld).exitCode = some 0) ∧
      (Ev.bindAttempt ∈ (runMain bindFailWorld).trace →
        (runMain bindFailWorld).trace.indexOf Ev.registerWebhook <
          (runMain bindFailWorld).trace.indexOf Ev.bindAttempt)) :=
  ⟨by decide, exit_code_behaviour bindFailWorld (by decide)⟩

end TeloxideWebhook
